import Mathlib

/-!
Verification of the flint bandpass-solution flagging engine.

Shallow embedding of `flint/bptools/preflagger.py` and
`flint/calibrate/aocalibrate.py`.  Floating-point values are modelled by the
exact rationals, with `none : Option _` standing for a non-finite (NaN) value.
The floating-point square root (used by `np.nanstd`) is abstracted as an
explicit function parameter `sq`; every theorem below is proved for all such
functions, so no result depends on its values.
-/

/-- Python exception kinds raised by the embedded code paths.
`phaseOutlierFitError` models `flint.exceptions.PhaseOutlierFitError`
(its class definition lives outside the sources provided; only its
distinctness from the built-in exception classes matters here). -/
inductive PyErr where
  | typeError
  | assertionError
  | valueError
  | runtimeError
  | phaseOutlierFitError
  | structError
  | indexError
  deriving DecidableEq, Repr

/-- A complex gain value: `none` models a value with a non-finite real or
imaginary part (NaN); `some (re, im)` a finite complex number. -/
def CVal : Type := Option (ℚ × ℚ)

instance : DecidableEq CVal := by unfold CVal; infer_instance

/-- The finite values of a possibly-NaN sequence, in order. -/
def finiteVals (rs : List (Option ℚ)) : List ℚ := rs.filterMap id

/-- Embeds `np.median`: sort, take the middle element, or the average of the two
middle elements for even length.  On the empty list numpy would return NaN;
this embedding totalises it to 0 and every theorem that relies on a median is
guarded by a nonemptiness hypothesis. -/
def npMedian (l : List ℚ) : ℚ :=
  let s := List.insertionSort (· ≤ ·) l
  let n := s.length
  if n % 2 = 1 then s.getD (n / 2) 0
  else (s.getD (n / 2 - 1) 0 + s.getD (n / 2) 0) / 2

/-- Embeds `np.mean` (here 0 on the empty list, where numpy gives NaN). -/
def npMean (l : List ℚ) : ℚ := l.sum / (l.length : ℚ)

/-- Embeds `np.argmax` over a flattened array: index of the first maximum. -/
def npArgmax (l : List ℕ) : ℕ := l.indexOf (l.foldl max 0)

/-- Number of non-finite entries of an array slice. -/
def countNonFinite (l : List CVal) : ℕ := l.countP (fun v => v.isNone)

/-! ## preflagger.py: flag_outlier_phase (lines 243-273)

The masking stage of `flag_outlier_phase` as a function of the final
unwrapped residual phases (`unwrapped_residuals` at line 243):

* `valid_residuals = unwrapped_residuals[isfinite]`
* `median = np.median(valid)` and `mad = np.median(abs(valid - median))`
* `mean = np.nanmean(residuals)` and `std = np.nanstd(residuals)`
  (both ignore NaN, hence range over the finite residuals)
* `(m, s)` is `(median, mad)` if `use_mad` else `(mean, std)`
* `final_mask = isfinite(r) & (abs(r) < m + flag_cut * s)`
* `outlier_mask = ~final_mask`
-/

/-- Center and spread as computed at preflagger.py lines 248-261.  `sq`
abstracts the floating-point square root inside `np.nanstd`. -/
def flag_outlier_phase_center_spread (sq : ℚ → ℚ) (rs : List (Option ℚ))
    (use_mad : Bool) : ℚ × ℚ :=
  let valid := finiteVals rs
  let med := npMedian valid
  let mad := npMedian (valid.map (fun v => |v - med|))
  let mean := npMean valid
  let std := sq (npMean (valid.map (fun v => (v - mean) ^ 2)))
  if use_mad then (med, mad) else (mean, std)

/-- The outlier mask produced at preflagger.py lines 263-273:
`~(isfinite(r) & (abs(r) < m + flag_cut * s))`.  A NaN residual compares
false against any bound, so it is always marked. -/
def flag_outlier_phase_mask (sq : ℚ → ℚ) (rs : List (Option ℚ))
    (flag_cut : ℚ) (use_mad : Bool) : List Bool :=
  let ms := flag_outlier_phase_center_spread sq rs use_mad
  rs.map (fun r => ! (match r with
    | some x => decide (|x| < ms.1 + flag_cut * ms.2)
    | none => false))

/-- The outlier rule exactly as the specification claims it: a channel is an
outlier when its residual is non-finite OR
`abs(residual - center) >= flag_cut * spread`. -/
def claimed_outlier_mask (sq : ℚ → ℚ) (rs : List (Option ℚ))
    (flag_cut : ℚ) (use_mad : Bool) : List Bool :=
  let ms := flag_outlier_phase_center_spread sq rs use_mad
  rs.map (fun r => match r with
    | some x => decide (flag_cut * ms.2 ≤ |x - ms.1|)
    | none => true)

/-- The amended outlier rule, matching the code: a channel is an outlier when
its residual is non-finite OR `abs(residual) >= center + flag_cut * spread`
(the center is not subtracted before the absolute value is taken, and a
residual exactly at the threshold is flagged). -/
def amended_outlier_mask (sq : ℚ → ℚ) (rs : List (Option ℚ))
    (flag_cut : ℚ) (use_mad : Bool) : List Bool :=
  let ms := flag_outlier_phase_center_spread sq rs use_mad
  rs.map (fun r => match r with
    | some x => decide (ms.1 + flag_cut * ms.2 ≤ |x|)
    | none => true)

/-! ## preflagger.py: flags_over_threshold (lines 289-319) -/

/-- Embeds `flags_over_threshold`.  The source asserts `0 <= thresh <= 1`, counts the
flagged entries, and before returning formats the log line
`f"Antenna ..."` applying the `02d` format to `ant_idx`; when `ant_idx` is
`None` (its default) that raises `TypeError` before the comparison
`frac_flagged > thresh` is returned. -/
def flags_over_threshold (flags : List Bool) (thresh : ℚ)
    (ant_idx : Option ℤ) : Except PyErr Bool :=
  if 0 ≤ thresh ∧ thresh ≤ 1 then
    let number_flagged : ℕ := flags.count true
    let total_flagged : ℕ := flags.length
    let frac_flagged : ℚ := (number_flagged : ℚ) / (total_flagged : ℚ)
    match ant_idx with
    | none => .error .typeError
    | some _ => .ok (decide (frac_flagged > thresh))
  else .error .assertionError

/-! ## preflagger.py: flag_mean_residual_amplitude (lines 322-362)

The source calls `np.polyfit(idxs[mask], amplitudes[mask], order=polynomial_order)`.
`np.polyfit` has parameters `(x, y, deg, rcond, full, w, cov)`; it has no
keyword parameter named `order`, so the call raises `TypeError` when the
arguments are bound, on every invocation. -/

/-- The parameter names of `np.polyfit` (first three required, first two
bound positionally at the call in the source). -/
def np_polyfit_params : List String := ["x", "y", "deg", "rcond", "full", "w", "cov"]

/-- Python call binding: a call with `npositional` positional arguments and
keyword arguments `kwargs` raises `TypeError` when a keyword is not a
parameter name, or when one of the first `required` parameters is left
unbound. -/
def pyBindErr (params : List String) (required npositional : ℕ)
    (kwargs : List String) : Option PyErr :=
  if kwargs.any (fun k => ! params.contains k) then some PyErr.typeError
  else if ((params.take required).drop npositional).any
      (fun p => ! kwargs.contains p) then some PyErr.typeError
  else none

/-- Embeds `np.polyval`: Horner evaluation, coefficients from the highest power down. -/
def np_polyval (coeffs : List ℚ) (x : ℚ) : ℚ :=
  coeffs.foldl (fun acc c => acc * x + c) 0

/-- Embeds `flag_mean_residual_amplitude`.  Here `polyfit` abstracts the least-squares
polynomial fit that `np.polyfit` would perform if its call bound; `sq`
abstracts the floating-point square root (complex amplitude, `np.std`).  The
body mirrors the source: amplitudes and finite mask are formed, then
`np.polyfit` is called with the keyword `order`, which fails to bind. -/
def flag_mean_residual_amplitude (polyfit : List ℚ → List ℚ → ℕ → List ℚ)
    (sq : ℚ → ℚ) (complex_gains : List CVal) (use_robust : Bool)
    (polynomial_order : ℕ) : Except PyErr Bool :=
  let amplitudes : List (Option ℚ) :=
    complex_gains.map (fun z => z.map (fun ri => sq (ri.1 * ri.1 + ri.2 * ri.2)))
  let idxs := List.range amplitudes.length
  match pyBindErr np_polyfit_params 3 2 ["order"] with
  | some e => .error e
  | none =>
    let pts := (idxs.zip amplitudes).filterMap
      (fun p => p.2.map (fun a => ((p.1 : ℚ), a)))
    let poly_coeffs := polyfit (pts.map Prod.fst) (pts.map Prod.snd) polynomial_order
    let residual : List (Option ℚ) := (idxs.zip amplitudes).map
      (fun p => p.2.map (fun a => a - np_polyval poly_coeffs (p.1 : ℚ)))
    let finiteRes := residual.filterMap id
    let stats :=
      if use_robust then
        let mean := npMedian finiteRes
        let deviation :=
          npMedian ((residual.map (fun r => r.map (fun v => |v| - mean))).filterMap id)
        (mean, deviation)
      else
        let mean := npMean finiteRes
        let deviation := sq (npMean (finiteRes.map (fun v => (v - mean) ^ 2)))
        (mean, deviation)
    .ok (decide (1/10 < |stats.1|) || decide (1/2 < stats.2))

/-! ## aocalibrate.py: the per-cell phase step of flag_aosolutions (lines 895-905)

`flag_outlier_phase` (preflagger.py line 233) calls `scipy.optimize.curve_fit`
with no surrounding try/except; when the optimizer does not converge scipy
raises `RuntimeError`, which therefore propagates out of `flag_outlier_phase`
unchanged.  The orchestrator wraps the call in
`try ... except PhaseOutlierFitError`, which blanks the cell only for that
specific class. -/

/-- Outcome of the scipy optimizer on one cell (external semantics, abstracted). -/
inductive FitOutcome where
  | converged (gradient offset : ℚ)
  | failed
  deriving DecidableEq

/-- Embeds `scipy.optimize.curve_fit`: returns the fitted parameters, or raises
`RuntimeError` when the least-squares optimisation does not converge. -/
def curve_fit_result (fit : FitOutcome) : Except PyErr (ℚ × ℚ) :=
  match fit with
  | .converged g o => .ok (g, o)
  | .failed => .error .runtimeError

/-- Exception behaviour of `flag_outlier_phase`: the `curve_fit` error (if
any) propagates unchanged, since the source has no try/except around it;
on success the outlier mask for the fitted parameters is produced.
`maskOf` abstracts the mask computed from the fitted `(gradient, offset)`. -/
def flag_outlier_phase_exc (fit : FitOutcome) (maskOf : ℚ → ℚ → List Bool) :
    Except PyErr (List Bool) :=
  match curve_fit_result fit with
  | .error e => .error e
  | .ok p => .ok (maskOf p.1 p.2)

/-- Blank the channels marked in the mask with NaN:
`bandpass[time, ant, outlier_mask, pol] = np.nan`. -/
def applyNaNMask (gains : List CVal) (mask : List Bool) : List CVal :=
  List.zipWith (fun g m => if m then none else g) gains mask

/-- The try/except around `flag_outlier_phase` in `flag_aosolutions`
(aocalibrate.py lines 895-905): on success the masked channels are blanked;
`except PhaseOutlierFitError` blanks the entire channel range; any other
exception propagates out of the orchestrator. -/
def phase_step_cell (gains : List CVal) (fit : FitOutcome)
    (maskOf : ℚ → ℚ → List Bool) : Except PyErr (List CVal) :=
  match flag_outlier_phase_exc fit maskOf with
  | .ok mask => .ok (applyNaNMask gains mask)
  | .error .phaseOutlierFitError => .ok (gains.map (fun _ => none))
  | .error e => .error e

/-! ## aocalibrate.py: the binary solution codec (lines 317-398)

The file is modelled as its 48 header bytes followed by the raw complex128
payload, kept as atomic complex values (the loader reads them back with the
same atomic dtype and never splits them into bytes). -/

/-- One complex128 array element. -/
def Cplx : Type := ℚ × ℚ

instance : DecidableEq Cplx := by unfold Cplx; infer_instance

/-- The eight magic bytes "MWAOCAL" followed by a NUL. -/
def MAGIC_BYTES : List ℕ := [77, 87, 65, 79, 67, 65, 76, 0]

/-- Little-endian encoding of an unsigned 32-bit integer (struct format "I"). -/
def encU32 (n : ℕ) : List ℕ :=
  [n % 256, n / 256 % 256, n / 65536 % 256, n / 16777216 % 256]

/-- Value of four little-endian bytes. -/
def leU32 (b0 b1 b2 b3 : ℕ) : ℕ := b0 + 256 * b1 + 65536 * b2 + 16777216 * b3

/-- Little-endian decoding of a signed 32-bit integer (numpy dtype i4 LE). -/
def decI32 (bs : List ℕ) : ℤ :=
  match bs with
  | b0 :: b1 :: b2 :: b3 :: _ =>
    if leU32 b0 b1 b2 b3 < 2 ^ 31 then (leU32 b0 b1 b2 b3 : ℤ)
    else (leU32 b0 b1 b2 b3 : ℤ) - 2 ^ 32
  | _ => 0

/-- An AO-style solutions file: 48 header bytes then the complex payload. -/
structure AOFile where
  headerBytes : List ℕ
  payload : List Cplx
  deriving DecidableEq

/-- The in-memory solution set (`AOSolutions` without its path field; the
bandpass array is kept as its row-major flattening). -/
structure AOSolutionsData where
  nsol : ℤ
  nant : ℤ
  nchan : ℤ
  npol : ℤ
  bandpass : List Cplx
  deriving DecidableEq

/-- Embeds `save_aosolutions_file` (lines 317-354): packs the header
`"8s6I2d"` with the magic, two zero type fields, the four extents, and two
reserved time doubles always written as 0.0 (sixteen zero bytes), then writes
the raw array.  The struct format "I" requires each extent to be an unsigned
32-bit value, raising `struct.error` otherwise.  `savedHeader` is the packed
48-byte header. -/
def savedHeader (a b c d : ℕ) : List ℕ :=
  MAGIC_BYTES ++ encU32 0 ++ encU32 0 ++ encU32 a ++ encU32 b ++ encU32 c
    ++ encU32 d ++ List.replicate 16 0

def save_aosolutions_file (s : AOSolutionsData) : Except PyErr AOFile :=
  if 0 ≤ s.nsol ∧ s.nsol < 2 ^ 32 ∧ 0 ≤ s.nant ∧ s.nant < 2 ^ 32
      ∧ 0 ≤ s.nchan ∧ s.nchan < 2 ^ 32 ∧ 0 ≤ s.npol ∧ s.npol < 2 ^ 32 then
    .ok { headerBytes := savedHeader s.nsol.toNat s.nant.toNat s.nchan.toNat
            s.npol.toNat,
          payload := s.bandpass }
  else .error .structError

/-- The `file_type` header field: first int32 after the 8 magic bytes. -/
def aofile_file_type (f : AOFile) : ℤ := decI32 ((f.headerBytes.drop 8).take 4)

/-- The `structure_type` header field: second int32 after the magic bytes. -/
def aofile_structure_type (f : AOFile) : ℤ :=
  decI32 ((f.headerBytes.drop 12).take 4)

/-- The four extent fields of the header. -/
def aofile_nsol (f : AOFile) : ℤ := decI32 ((f.headerBytes.drop 16).take 4)

def aofile_nant (f : AOFile) : ℤ := decI32 ((f.headerBytes.drop 20).take 4)

def aofile_nchan (f : AOFile) : ℤ := decI32 ((f.headerBytes.drop 24).take 4)

def aofile_npol (f : AOFile) : ℤ := decI32 ((f.headerBytes.drop 28).take 4)

/-- Embeds `load_aosolutions_file` (lines 357-398).  The first two int32 reads (the
magic bytes) are assigned to `_junk` and never validated.  The source then
asserts `file_type == 0` and, at line 381, asserts `file_type == 0` a second
time (the message speaks of `structure_type`, but the tested value is again
`file_type`), so `structure_type` is never validated either.  The extents are
read and the payload is reshaped to them.  Reads past the data and reshape
failures are totalised to `indexError` and `valueError`; both branches are
outside the region the theorems below quantify over. -/
def load_aosolutions_file (f : AOFile) : Except PyErr AOSolutionsData :=
  if f.headerBytes.length < 48 then .error .indexError
  else if ¬ aofile_file_type f = 0 then .error .assertionError
  else if ¬ aofile_file_type f = 0 then .error .assertionError
  else if 0 ≤ aofile_nsol f ∧ 0 ≤ aofile_nant f ∧ 0 ≤ aofile_nchan f
      ∧ 0 ≤ aofile_npol f
      ∧ (aofile_nsol f * aofile_nant f * aofile_nchan f * aofile_npol f).toNat
          ≤ f.payload.length then
    .ok { nsol := aofile_nsol f, nant := aofile_nant f, nchan := aofile_nchan f,
          npol := aofile_npol f,
          bandpass := f.payload.take
            (aofile_nsol f * aofile_nant f * aofile_nchan f * aofile_npol f).toNat }
  else .error .valueError

/-! ## aocalibrate.py: select_refant (lines 773-799) -/

/-- A numpy ndarray of complex values: explicit shape plus row-major data. -/
structure NDArray where
  shape : List ℕ
  data : List CVal

/-- Row-major flat index of element `(t, a, c, p)` in a
`(nsol, nant, nchan, npol)` array. -/
def idx4 (nant nchan npol t a c p : ℕ) : ℕ :=
  ((t * nant + a) * nchan + c) * npol + p

/-- Number of finite entries of antenna `a` at time `t`, summed over channel
and polarisation (one entry of `sum_mask = np.sum(mask, axis=(2, 3))`). -/
def countFiniteTA (d : NDArray) (nant nchan npol t a : ℕ) : ℕ :=
  ((List.range nchan).flatMap (fun c => (List.range npol).map (fun p =>
    d.data.getD (idx4 nant nchan npol t a c p) none))).countP (fun v => v.isSome)

/-- Embeds `select_refant`: asserts the bandpass has 4 dimensions, builds
`sum_mask = np.sum(np.isfinite(bandpass), axis=(2, 3))` of shape
`(nsol, nant)`, and returns `np.argmax(sum_mask, keepdims=True)[0][0]` - the
argmax over the FLATTENED `(nsol, nant)` array, since no axis is given.
`np.argmax` of an empty array raises `ValueError`. -/
def select_refant (d : NDArray) : Except PyErr ℕ :=
  match d.shape with
  | [nsol, nant, nchan, npol] =>
    let sum_mask := (List.range nsol).flatMap (fun t =>
      (List.range nant).map (fun a => countFiniteTA d nant nchan npol t a))
    if sum_mask.isEmpty then .error .valueError
    else .ok (npArgmax sum_mask)
  | _ => .error .assertionError

/-- The per-antenna finite counts of the first time solution, the quantity
the claim says `select_refant` maximises over. -/
def first_time_antenna_counts (d : NDArray) (nant nchan npol : ℕ) : List ℕ :=
  (List.range nant).map (fun a => countFiniteTA d nant nchan npol 0 a)

/-! ## aocalibrate.py: the tail of flag_aosolutions (lines 947-985)

After the flagging passes have mutated the bandpass, `flag_aosolutions`
(1) overwrites its `out_solutions_path` parameter with
`get_aocalibrate_output_path(solutions_path, preflagger=True, smoother=False)`
and saves the solutions there, (2) if smoothing was requested, hands the
array to the external smoothing collaborator, overwrites the path again with
the smoothed variant and saves a second file, and (3) only then computes the
fraction of non-finite entries and raises `ValueError` when it exceeds 0.8.
The persisted files therefore exist before the sanity check can fire. -/

/-- Modelled from the spec: `get_aocalibrate_output_path` is imported from
`flint.naming` but is absent from the provided sources.  Per the spec naming
convention it derives the output solutions path from the input path alone,
adding the preflagged suffix and, when requested, the smoothed suffix. -/
def get_aocalibrate_output_path (ms_path : String)
    (include_preflagger include_smoother : Bool) : String :=
  ms_path ++ (if include_preflagger then ".preflagged" else "")
    ++ (if include_smoother then ".smoothed" else "")

/-- Result of the orchestrator tail: the solution files persisted via
`save`, in order, and the outcome (the path carried by the returned
`FlaggedAOSolution`, or the exception raised). -/
structure TailResult where
  persisted : List String
  outcome : Except PyErr String

/-- The tail of `flag_aosolutions` (aocalibrate.py lines 947-985), as a
function of the bandpass state left by the flagging passes.  `smoothFn`
abstracts the external smoothing collaborator (`flint.bptools.smoother`,
outside the flagging core); `out_solutions_path` is the function parameter of
the same name (line 816), threaded through to record that it is overwritten
at line 949 before any use. -/
def flag_aosolutions_tail (solutions_path : String)
    (out_solutions_path : Option String) (bandpass : List CVal)
    (smooth_solutions : Bool) (smoothFn : List CVal → List CVal) : TailResult :=
  { persisted :=
      if smooth_solutions then
        [get_aocalibrate_output_path solutions_path true false,
         get_aocalibrate_output_path solutions_path true true]
      else [get_aocalibrate_output_path solutions_path true false],
    outcome :=
      if (countNonFinite (if smooth_solutions then smoothFn bandpass else bandpass) : ℚ)
          / ((if smooth_solutions then smoothFn bandpass else bandpass).length : ℚ)
          > 8 / 10 then
        .error .valueError
      else
        .ok (if smooth_solutions then
          get_aocalibrate_output_path solutions_path true true
        else get_aocalibrate_output_path solutions_path true false) }

/-! ## Claim C1 -/

/-- C1 (amended): the outlier mask of `flag_outlier_phase` marks a channel
exactly when its final unwrapped residual phase is non-finite OR
`abs(residual) >= center + flag_cut * spread`, with `(center, spread)` the
(median, MAD) or (mean, std) of the finite residuals; the absolute residual
is compared against `center + flag_cut * spread` (the code does not subtract
the center inside the absolute value), and a residual exactly at that
threshold is flagged. -/
theorem C1_outlier_mask_amended (sq : ℚ → ℚ) (rs : List (Option ℚ))
    (flag_cut : ℚ) (use_mad : Bool) (hfin : finiteVals rs ≠ []) :
    flag_outlier_phase_mask sq rs flag_cut use_mad
      = amended_outlier_mask sq rs flag_cut use_mad := by
  unfold flag_outlier_phase_mask amended_outlier_mask
  refine List.map_congr_left ?_
  intro r _
  cases r with
  | none => rfl
  | some x => simp [← decide_not, not_lt]

/-- The residual sequence refuting C1 as stated. -/
def c1rs : List (Option ℚ) := [some (1/4), some (1/2), some (3/4), some (-(1/2))]

/-- C1 counterexample: with residuals (1/4, 1/2, 3/4, -1/2), `flag_cut = 1`
and robust statistics (median 3/8, MAD 1/4), the code keeps channel 3
(|-1/2| < 3/8 + 1/4) while the claimed rule flags it
(|-1/2 - 3/8| = 7/8 >= 1/4): the claimed mask differs from the mask the code computes. -/
theorem C1_counterexample :
    claimed_outlier_mask (fun x => x) c1rs 1 true
        ≠ flag_outlier_phase_mask (fun x => x) c1rs 1 true ∧
      flag_outlier_phase_mask (fun x => x) c1rs 1 true
        = [false, false, true, false] ∧
      claimed_outlier_mask (fun x => x) c1rs 1 true
        = [false, false, true, true] := by
  have hms : flag_outlier_phase_center_spread (fun x => x)
      [some (1/4), some (1/2), some (3/4), some (-(1/2))] true
      = (3/8, 1/4) := by
    norm_num [flag_outlier_phase_center_spread, finiteVals, npMedian, npMean,
      List.insertionSort, List.orderedInsert, List.getD, abs, max_def]
  have hcode : flag_outlier_phase_mask (fun x => x) c1rs 1 true
      = [false, false, true, false] := by
    norm_num [flag_outlier_phase_mask, c1rs, hms, abs, max_def]
  have hclaim : claimed_outlier_mask (fun x => x) c1rs 1 true
      = [false, false, true, true] := by
    norm_num [claimed_outlier_mask, c1rs, hms, abs, max_def]
  exact ⟨by rw [hcode, hclaim]; decide, hcode, hclaim⟩

/-- C1 witness: the amended rule evaluated on the concrete residuals above. -/
theorem C1_witness :
    finiteVals c1rs ≠ [] ∧
      flag_outlier_phase_mask (fun x => x) c1rs 1 true
        = amended_outlier_mask (fun x => x) c1rs 1 true :=
  ⟨by simp [finiteVals, c1rs],
    C1_outlier_mask_amended (fun x => x) c1rs 1 true (by simp [finiteVals, c1rs])⟩

/-! ## Claim C2 -/

/-- C2: when the optimizer does not converge for a cell, `flag_outlier_phase`
raises the scipy `RuntimeError` (it never raises `PhaseOutlierFitError`), the
orchestrator handler `except PhaseOutlierFitError` does not catch it, the cell is
not blanked, and the error surfaces past the orchestrator - contradicting the
claim, whose recovery path is dead code. -/
theorem C2_fit_error_escapes_orchestrator (gains : List CVal)
    (maskOf : ℚ → ℚ → List Bool) :
    flag_outlier_phase_exc FitOutcome.failed maskOf
        = .error .runtimeError ∧
      flag_outlier_phase_exc FitOutcome.failed maskOf
        ≠ .error .phaseOutlierFitError ∧
      phase_step_cell gains FitOutcome.failed maskOf
        = .error .runtimeError ∧
      phase_step_cell gains FitOutcome.failed maskOf
        ≠ .ok (gains.map (fun _ => none)) := by
  refine ⟨rfl, by simp [flag_outlier_phase_exc, curve_fit_result], rfl,
    by simp [phase_step_cell, flag_outlier_phase_exc, curve_fit_result]⟩

/-! ## Claim C3 -/

/-- C3: `flag_mean_residual_amplitude` raises `TypeError` on every input:
its `np.polyfit` call passes the keyword argument `order`, which is not a
parameter of `np.polyfit` (the degree parameter is named `deg`), so the
function never reaches the polynomial fit, the residual statistics, or the
`abs(mean) > 0.1 or deviation > 0.5` comparison the claim describes. -/
theorem C3_always_typeError (polyfit : List ℚ → List ℚ → ℕ → List ℚ)
    (sq : ℚ → ℚ) (complex_gains : List CVal) (use_robust : Bool)
    (polynomial_order : ℕ) :
    flag_mean_residual_amplitude polyfit sq complex_gains use_robust
      polynomial_order = .error .typeError := rfl

/-! ## Claim C8 -/

/-- C8: with an integer `ant_idx` supplied (see C9) and `0 <= thresh <= 1`,
`flags_over_threshold` returns exactly the comparison
`flagged_count / total_count > thresh` - true iff the flagged fraction is
strictly greater than the threshold. -/
theorem C8_flags_over_threshold_strict (flags : List Bool) (thresh : ℚ)
    (i : ℤ) (h0 : 0 ≤ thresh) (h1 : thresh ≤ 1) :
    flags_over_threshold flags thresh (some i)
      = .ok (decide ((flags.count true : ℚ) / (flags.length : ℚ) > thresh)) := by
  unfold flags_over_threshold
  rw [if_pos ⟨h0, h1⟩]

/-- C8 witness: the boundary cases of the claim - exactly 80 of 100 flagged at
`thresh = 0.8` is false; 81 of 100 is true. -/
theorem C8_witness :
    flags_over_threshold (List.replicate 80 true ++ List.replicate 20 false)
        (8/10) (some 0) = .ok false ∧
      flags_over_threshold (List.replicate 81 true ++ List.replicate 19 false)
        (8/10) (some 0) = .ok true := by
  constructor
  · rw [C8_flags_over_threshold_strict (List.replicate 80 true
      ++ List.replicate 20 false) (8/10) 0 (by norm_num) (by norm_num)]
    norm_num [List.count_replicate]
  · rw [C8_flags_over_threshold_strict (List.replicate 81 true
      ++ List.replicate 19 false) (8/10) 0 (by norm_num) (by norm_num)]
    norm_num [List.count_replicate]

/-! ## Claim C9 -/

/-- C9: with a valid `thresh` and the default `ant_idx = None`,
`flags_over_threshold` never returns a boolean: formatting the log message
(applying the `02d` format to `None`) raises `TypeError` before the threshold
comparison is returned; with an integer `ant_idx` the boolean comparison is
returned. -/
theorem C9_none_ant_idx_raises (flags : List Bool) (thresh : ℚ)
    (h0 : 0 ≤ thresh) (h1 : thresh ≤ 1) :
    flags_over_threshold flags thresh none = .error .typeError ∧
      ∀ i : ℤ, flags_over_threshold flags thresh (some i)
        = .ok (decide ((flags.count true : ℚ) / (flags.length : ℚ) > thresh)) := by
  constructor
  · unfold flags_over_threshold
    rw [if_pos ⟨h0, h1⟩]
  · intro i
    unfold flags_over_threshold
    rw [if_pos ⟨h0, h1⟩]

/-- C9 witness: a concrete run with the default `None` antenna index raises
`TypeError`, and the same input with an integer index returns a boolean. -/
theorem C9_witness :
    flags_over_threshold [true, false] (1/2) none = .error .typeError ∧
      flags_over_threshold [true, false] (1/2) (some 3) = .ok false := by
  constructor
  · exact (C9_none_ant_idx_raises [true, false] (1/2) (by norm_num)
      (by norm_num)).1
  · rw [(C9_none_ant_idx_raises [true, false] (1/2) (by norm_num)
      (by norm_num)).2 3]
    norm_num

/-! ## Claims C4 and C5: the binary codec -/

/-- Decoding the four little-endian bytes of an unsigned value below `2^31`
as a signed int32 recovers the value. -/
theorem decI32_encU32 (n : ℕ) (h : n < 2 ^ 31) : decI32 (encU32 n) = (n : ℤ) := by
  have hu : leU32 (n % 256) (n / 256 % 256) (n / 65536 % 256)
      (n / 16777216 % 256) = n := by
    unfold leU32
    omega
  simp only [encU32, decI32, hu]
  rw [if_pos h]

/-- C4 (amended): for a well-formed file (full header present, consistent
extents) `load_aosolutions_file` fails - with the `AssertionError` standing
for the spec notion of `FormatError` - exactly when the `file_type` field is nonzero.
The magic tag is read into `_junk` and never compared, and `structure_type`
is never validated because the second assertion re-tests `file_type`. -/
theorem C4_load_validates_only_file_type (f : AOFile)
    (hlen : 48 ≤ f.headerBytes.length)
    (hdims : 0 ≤ aofile_nsol f ∧ 0 ≤ aofile_nant f ∧ 0 ≤ aofile_nchan f
      ∧ 0 ≤ aofile_npol f
      ∧ (aofile_nsol f * aofile_nant f * aofile_nchan f * aofile_npol f).toNat
          ≤ f.payload.length) :
    (aofile_file_type f = 0 →
      load_aosolutions_file f = .ok
        { nsol := aofile_nsol f, nant := aofile_nant f,
          nchan := aofile_nchan f, npol := aofile_npol f,
          bandpass := f.payload.take
            (aofile_nsol f * aofile_nant f * aofile_nchan f
              * aofile_npol f).toNat }) ∧
    (aofile_file_type f ≠ 0 →
      load_aosolutions_file f = .error .assertionError) := by
  unfold load_aosolutions_file
  rw [if_neg (by omega)]
  constructor
  · intro h
    rw [if_neg (not_not_intro h), if_neg (not_not_intro h), if_pos hdims]
  · intro h
    rw [if_pos h]

/-- A well-formed file accepted by `load_aosolutions_file`. -/
def c4good : AOFile :=
  { headerBytes := savedHeader 1 1 1 1, payload := [((1 : ℚ), (0 : ℚ))] }

/-- C4 witness: the amended characterisation evaluated on a concrete
well-formed file. -/
theorem C4_witness :
    load_aosolutions_file c4good = .ok
      { nsol := aofile_nsol c4good, nant := aofile_nant c4good,
        nchan := aofile_nchan c4good, npol := aofile_npol c4good,
        bandpass := c4good.payload.take
          (aofile_nsol c4good * aofile_nant c4good * aofile_nchan c4good
            * aofile_npol c4good).toNat } :=
  (C4_load_validates_only_file_type c4good (by decide)
    ⟨by decide, by decide, by decide, by decide, by decide⟩).1 (by decide)

/-- A file whose magic tag is wrong (eight 88 bytes instead of "MWAOCAL")
and whose `structure_type` field is 7, with `file_type = 0`. -/
def c4bad : AOFile :=
  { headerBytes := List.replicate 8 88 ++ encU32 0 ++ encU32 7 ++ encU32 0
      ++ encU32 0 ++ encU32 0 ++ encU32 0 ++ List.replicate 16 0,
    payload := [] }

/-- C4 counterexample: a file whose magic differs from "MWAOCAL" and whose
`structure_type` is 7 is loaded successfully, refuting the claim that load
fails for every file whose magic or structure type differs from the
supported constants. -/
theorem C4_counterexample :
    c4bad.headerBytes.take 8 ≠ MAGIC_BYTES ∧
      aofile_structure_type c4bad = 7 ∧
      load_aosolutions_file c4bad
        = .ok { nsol := 0, nant := 0, nchan := 0, npol := 0, bandpass := [] } := by
  refine ⟨by decide, by decide, ?_⟩
  rfl

/-- Loading a file whose header was produced by `savedHeader` recovers the
four extents and takes the corresponding payload prefix. -/
theorem load_savedHeader (a b c d : ℕ) (pl : List Cplx)
    (ha : a < 2 ^ 31) (hb : b < 2 ^ 31) (hc : c < 2 ^ 31) (hd : d < 2 ^ 31)
    (hlen : ((a : ℤ) * (b : ℤ) * (c : ℤ) * (d : ℤ)).toNat ≤ pl.length) :
    load_aosolutions_file ⟨savedHeader a b c d, pl⟩
      = .ok { nsol := (a : ℤ), nant := (b : ℤ), nchan := (c : ℤ),
              npol := (d : ℤ),
              bandpass := pl.take
                ((a : ℤ) * (b : ℤ) * (c : ℤ) * (d : ℤ)).toNat } := by
  have hft : aofile_file_type ⟨savedHeader a b c d, pl⟩ = 0 :=
    decI32_encU32 0 (by norm_num)
  have hA : aofile_nsol ⟨savedHeader a b c d, pl⟩ = (a : ℤ) :=
    decI32_encU32 a ha
  have hB : aofile_nant ⟨savedHeader a b c d, pl⟩ = (b : ℤ) :=
    decI32_encU32 b hb
  have hC : aofile_nchan ⟨savedHeader a b c d, pl⟩ = (c : ℤ) :=
    decI32_encU32 c hc
  have hD : aofile_npol ⟨savedHeader a b c d, pl⟩ = (d : ℤ) :=
    decI32_encU32 d hd
  have hl : (savedHeader a b c d).length = 48 := by
    simp [savedHeader, MAGIC_BYTES, encU32]
  unfold load_aosolutions_file
  dsimp only
  rw [hl, hft, hA, hB, hC, hD]
  rw [if_neg (by omega), if_neg (by simp), if_neg (by simp),
    if_pos ⟨by omega, by omega, by omega, by omega, hlen⟩]

/-- C5: round-trip identity - for a valid solution set (extents
representable as int32, bandpass of matching size), `load(save(x))`
reproduces every field; the only information not carried through the
round-trip is the pair of reserved time doubles, which `save` always writes
as 0.0 and `load` discards. -/
theorem C5_roundtrip (s : AOSolutionsData) (h1 : 0 ≤ s.nsol)
    (h2 : s.nsol < 2 ^ 31) (h3 : 0 ≤ s.nant) (h4 : s.nant < 2 ^ 31)
    (h5 : 0 ≤ s.nchan) (h6 : s.nchan < 2 ^ 31) (h7 : 0 ≤ s.npol)
    (h8 : s.npol < 2 ^ 31)
    (hlen : s.bandpass.length = (s.nsol * s.nant * s.nchan * s.npol).toNat) :
    (save_aosolutions_file s).bind load_aosolutions_file = .ok s := by
  have e1 : ((s.nsol.toNat : ℤ)) = s.nsol := by omega
  have e2 : ((s.nant.toNat : ℤ)) = s.nant := by omega
  have e3 : ((s.nchan.toNat : ℤ)) = s.nchan := by omega
  have e4 : ((s.npol.toNat : ℤ)) = s.npol := by omega
  unfold save_aosolutions_file
  rw [if_pos ⟨h1, by omega, h3, by omega, h5, by omega, h7, by omega⟩]
  show load_aosolutions_file
    ⟨savedHeader s.nsol.toNat s.nant.toNat s.nchan.toNat s.npol.toNat,
      s.bandpass⟩ = .ok s
  rw [load_savedHeader s.nsol.toNat s.nant.toNat s.nchan.toNat s.npol.toNat
    s.bandpass (by omega) (by omega) (by omega) (by omega)
    (by rw [e1, e2, e3, e4, ← hlen])]
  rw [e1, e2, e3, e4, ← hlen, List.take_length]


/-- A small valid solution set for the round-trip. -/
def c5sols : AOSolutionsData :=
  { nsol := 1, nant := 1, nchan := 2, npol := 1,
    bandpass := [((1 : ℚ), (0 : ℚ)), ((0 : ℚ), (-(2 : ℚ)))] }

/-- C5 witness: the round-trip evaluated on a concrete solution set. -/
theorem C5_witness :
    (save_aosolutions_file c5sols).bind load_aosolutions_file = .ok c5sols :=
  C5_roundtrip c5sols (by decide) (by decide) (by decide) (by decide)
    (by decide) (by decide) (by decide) (by decide) (by decide)

/-! ## Claim C6 -/

/-- C6 (amended): whenever the fraction of non-finite entries of the final
bandpass exceeds 0.8 the orchestrator tail raises the fatal error
(`ValueError`, the spec notion of `OverFlaggedError`), but the final solution file
has already been persisted before the check runs; the abort only prevents
the `FlaggedAOSolution` summary from being returned. -/
theorem C6_overflag_abort (sp : String) (o : Option String) (bp : List CVal)
    (smooth : Bool) (sm : List CVal → List CVal)
    (h : 8 / 10 < (countNonFinite (if smooth then sm bp else bp) : ℚ)
      / ((if smooth then sm bp else bp).length : ℚ)) :
    (flag_aosolutions_tail sp o bp smooth sm).outcome = .error .valueError ∧
      get_aocalibrate_output_path sp true smooth
        ∈ (flag_aosolutions_tail sp o bp smooth sm).persisted := by
  constructor
  · show (if _ > 8 / 10 then Except.error PyErr.valueError else _)
      = Except.error PyErr.valueError
    rw [if_pos h]
  · cases smooth <;>
      simp [flag_aosolutions_tail, get_aocalibrate_output_path]

/-- A bandpass state with 17 of 20 entries non-finite (85 percent). -/
def bp85 : List CVal := List.replicate 17 none ++ List.replicate 3 (some (1, 0))

/-- C6 counterexample: with 85 percent of the bandpass non-finite the tail
raises the fatal error, yet the "final" preflagged solution file has been
persisted - refuting the claim that no persisted final solution file is
produced. -/
theorem C6_counterexample :
    (flag_aosolutions_tail "sol.bin" none bp85 false id).outcome
        = .error .valueError ∧
      (flag_aosolutions_tail "sol.bin" none bp85 false id).persisted
        = [get_aocalibrate_output_path "sol.bin" true false] := by
  have hbp : (if false = true then id bp85 else bp85) = bp85 := rfl
  have hc : countNonFinite bp85 = 17 := by decide
  have hl : bp85.length = 20 := by decide
  constructor
  · show (if _ > 8 / 10 then Except.error PyErr.valueError else _)
      = Except.error PyErr.valueError
    rw [hbp, hc, hl, if_pos (by norm_num)]
  · rfl

/-- C6 witness: the amended statement evaluated on the 85-percent-flagged
bandpass. -/
theorem C6_witness :
    (flag_aosolutions_tail "sol.bin" none bp85 false id).outcome
        = .error .valueError ∧
      get_aocalibrate_output_path "sol.bin" true false
        ∈ (flag_aosolutions_tail "sol.bin" none bp85 false id).persisted :=
  C6_overflag_abort "sol.bin" none bp85 false id
    (by rw [show (if false = true then id bp85 else bp85) = bp85 from rfl,
      (by decide : countNonFinite bp85 = 17), (by decide : bp85.length = 20)]
        norm_num)

/-! ## Claim C7 -/

/-- C7 (amended): `select_refant` fails with the `AssertionError` (the
spec notion of `ShapeError`) for every input whose rank is not 4; for a rank-4
input it returns `np.argmax` over the FLATTENED `(time, antenna)` table of
finite counts - all time solutions, not just the first - which coincides
with the claimed per-antenna argmax for the first time solution exactly when
there is a single time solution. -/
theorem C7_select_refant_amended :
    (∀ d : NDArray, d.shape.length ≠ 4 →
      select_refant d = .error .assertionError) ∧
    (∀ (d : NDArray) (nant nchan npol : ℕ),
      d.shape = [1, nant, nchan, npol] → 0 < nant →
      select_refant d
        = .ok (npArgmax (first_time_antenna_counts d nant nchan npol))) := by
  constructor
  · intro d h
    obtain ⟨sh, data⟩ := d
    rcases sh with _ | ⟨a, _ | ⟨b, _ | ⟨c, _ | ⟨e, _ | ⟨f, rest⟩⟩⟩⟩⟩
    · rfl
    · rfl
    · rfl
    · rfl
    · simp at h
    · rfl
  · intro d nant nchan npol hsh hant
    obtain ⟨sh, data⟩ := d
    simp only at hsh
    subst hsh
    show (if ((List.range 1).flatMap (fun t => (List.range nant).map
        (fun a => countFiniteTA ⟨[1, nant, nchan, npol], data⟩
          nant nchan npol t a))).isEmpty = true
      then Except.error PyErr.valueError
      else Except.ok (npArgmax ((List.range 1).flatMap
        (fun t => (List.range nant).map (fun a =>
          countFiniteTA ⟨[1, nant, nchan, npol], data⟩ nant nchan npol t a)))))
      = Except.ok (npArgmax (first_time_antenna_counts
          ⟨[1, nant, nchan, npol], data⟩ nant nchan npol))
    have hflat : (List.range 1).flatMap (fun t => (List.range nant).map
        (fun a => countFiniteTA ⟨[1, nant, nchan, npol], data⟩
          nant nchan npol t a))
        = first_time_antenna_counts ⟨[1, nant, nchan, npol], data⟩
            nant nchan npol := by
      simp [show List.range 1 = [0] from rfl, first_time_antenna_counts]
    rw [hflat, if_neg ?_]
    simp [first_time_antenna_counts, List.isEmpty_iff, List.range_eq_nil]
    omega

/-- The bandpass refuting C7: two time solutions, two antennas, two
channels, one polarisation; antenna 0 has one finite channel at time 0 and
two at time 1. -/
def c7bp : NDArray :=
  { shape := [2, 2, 2, 1],
    data := [some (1, 0), none, none, none,
             some (1, 0), some (1, 0), none, none] }

/-- C7 counterexample: the first-time per-antenna counts are (1, 0), so the
claimed result is antenna 0, but `select_refant` returns 2 - the flattened
index of the (time 1, antenna 0) cell, which is not even a valid antenna
index for this array. -/
theorem C7_counterexample :
    select_refant c7bp = .ok 2 ∧
      npArgmax (first_time_antenna_counts c7bp 2 2 1) = 0 := by
  constructor
  · rfl
  · decide

/-- A rank-3 array. -/
def c7rank3 : NDArray := { shape := [2, 2, 2], data := [] }

/-- A rank-4 single-time array. -/
def c7single : NDArray :=
  { shape := [1, 2, 1, 1], data := [none, some (1, 0)] }

/-- C7 witness: the amended characterisation evaluated on a rank-3 array
(shape failure) and on a concrete single-time array. -/
theorem C7_witness :
    select_refant c7rank3 = .error .assertionError ∧
      select_refant c7single
        = .ok (npArgmax (first_time_antenna_counts c7single 2 1 1)) :=
  ⟨C7_select_refant_amended.1 c7rank3 (by decide),
    C7_select_refant_amended.2 c7single 2 1 1 rfl (by decide)⟩

/-! ## Claim C10 -/

/-- C10: `flag_aosolutions` ignores its `out_solutions_path` argument - the
tail produces identical persisted files and identical outcome for any two
values of it, and whenever a result is returned its path is derived from
`solutions_path` alone through the naming convention (preflagged suffix,
plus the smoothed suffix when smoothing is requested). -/
theorem C10_out_solutions_path_ignored (sp : String) (o1 o2 : Option String)
    (bp : List CVal) (smooth : Bool) (sm : List CVal → List CVal) :
    flag_aosolutions_tail sp o1 bp smooth sm
        = flag_aosolutions_tail sp o2 bp smooth sm ∧
      ((flag_aosolutions_tail sp o1 bp smooth sm).outcome
          = .error .valueError ∨
        (flag_aosolutions_tail sp o1 bp smooth sm).outcome
          = .ok (get_aocalibrate_output_path sp true smooth)) := by
  refine ⟨rfl, ?_⟩
  cases smooth
  · have houtcome : (flag_aosolutions_tail sp o1 bp false sm).outcome
        = if (countNonFinite bp : ℚ) / (bp.length : ℚ) > 8 / 10
          then Except.error PyErr.valueError
          else Except.ok (get_aocalibrate_output_path sp true false) := rfl
    rw [houtcome]
    split
    · exact Or.inl rfl
    · exact Or.inr rfl
  · have houtcome : (flag_aosolutions_tail sp o1 bp true sm).outcome
        = if (countNonFinite (sm bp) : ℚ) / ((sm bp).length : ℚ) > 8 / 10
          then Except.error PyErr.valueError
          else Except.ok (get_aocalibrate_output_path sp true true) := rfl
    rw [houtcome]
    split
    · exact Or.inl rfl
    · exact Or.inr rfl
